import Mathlib

/-!
Verification of the DAO withdrawal core of `ckb-cli`
(`src/subcommands/dao/util.rs` and the collaborators it calls).

The development shallowly embeds:

* `EpochPoint` (the chain's `EpochNumberWithFraction`) and the
  `minimal_unlock_point` calculator;
* the maximum-withdraw formula (`calculate_dao_maximum_withdraw4`);
* the two-hop resolution pipeline `calculate_dao_maximum_withdraw`
  (the body of `src/subcommands/dao/util.rs`, lines 12-81), over an
  abstract RPC collaborator;
* the submission path `send_transaction` (lines 83-99) with its
  pre-submission capacity check.

Functions that live outside the given sources (`minimal_unlock_point`,
`calculate_dao_maximum_withdraw4`, `check_lack_of_capacity`,
`occupied_capacity`, `Capacity::bytes`) are modelled from the
specification; each such definition carries a doc comment starting with
`Modelled from the spec:`.  Everything else is translated directly from
the Rust source.
-/

/-- A fractional chain epoch position: the real value
`number + index/length`.  Mirrors the chain's `EpochNumberWithFraction`
(`u64` fields). -/
structure EpochPoint where
  number : Nat
  index : Nat
  length : Nat
  deriving DecidableEq

/-- The compounding cycle length in epochs (the chain's
`LOCK_PERIOD_EPOCHES` constant, exhibited by the test vectors). -/
def CYCLE : Nat := 180

/-- The exact rational value `number + index/length` represented by an
epoch point. -/
def EpochPoint.val (e : EpochPoint) : ℚ :=
  (e.number : ℚ) + (e.index : ℚ) / (e.length : ℚ)

/-- Modelled from the spec: the number of whole `CYCLE`s that must pass
after the deposit point before the (fraction-preserving) candidate is at
least the prepare point, i.e.
`k = max(0, ceil((prepare_value - deposit_value) / CYCLE))` computed by
exact cross-multiplied rational arithmetic
(`src/subcommands/dao/util.rs` only contains the test
`test_minimal_unlock_point`; the calculator itself is external). -/
def unlockK (d p : EpochPoint) : Nat :=
  if (p.number * p.length + p.index) * d.length ≤
      (d.number * d.length + d.index) * p.length then 0
  else ((p.number * p.length + p.index) * d.length
          - (d.number * d.length + d.index) * p.length
          + CYCLE * (d.length * p.length) - 1)
        / (CYCLE * (d.length * p.length))

/-- Modelled from the spec: the minimal unlock point is the smallest
value of the form `deposit.number + k*CYCLE` (`k ≥ 0` an integer),
carrying the same fractional position `index/length` as the deposit
point, that is not less than `prepare` under exact rational
comparison. -/
def minimal_unlock_point (d p : EpochPoint) : EpochPoint :=
  ⟨d.number + unlockK d p * CYCLE, d.index, d.length⟩

lemma EpochPoint.val_eq_div (e : EpochPoint) (h : 0 < e.length) :
    e.val = ((e.number * e.length + e.index : ℕ) : ℚ) / (e.length : ℚ) := by
  have h0 : (0 : ℚ) < (e.length : ℚ) := by exact_mod_cast h
  field_simp [EpochPoint.val]

lemma EpochPoint.val_le_val (a b : EpochPoint)
    (ha : 0 < a.length) (hb : 0 < b.length) :
    a.val ≤ b.val ↔
      (a.number * a.length + a.index) * b.length ≤
        (b.number * b.length + b.index) * a.length := by
  have ha' : (0 : ℚ) < (a.length : ℚ) := by exact_mod_cast ha
  have hb' : (0 : ℚ) < (b.length : ℚ) := by exact_mod_cast hb
  rw [a.val_eq_div ha, b.val_eq_div hb, div_le_div_iff₀ ha' hb']
  constructor
  · intro h; exact_mod_cast h
  · intro h; exact_mod_cast h

lemma EpochPoint.val_lt_val (a b : EpochPoint)
    (ha : 0 < a.length) (hb : 0 < b.length) :
    a.val < b.val ↔
      (a.number * a.length + a.index) * b.length <
        (b.number * b.length + b.index) * a.length := by
  have ha' : (0 : ℚ) < (a.length : ℚ) := by exact_mod_cast ha
  have hb' : (0 : ℚ) < (b.length : ℚ) := by exact_mod_cast hb
  rw [a.val_eq_div ha, b.val_eq_div hb, div_lt_div_iff₀ ha' hb']
  constructor
  · intro h; exact_mod_cast h
  · intro h; exact_mod_cast h

lemma EpochPoint.val_add_number (n c i l : Nat) :
    (EpochPoint.mk (n + c) i l).val = (EpochPoint.mk n i l).val + (c : ℚ) := by
  simp [EpochPoint.val]
  ring

/-- Ceiling division bound: `m * ceil(a/m) ≥ a`. -/
lemma ceilDiv_ge (a m : Nat) (hm : 0 < m) : a ≤ m * ((a + m - 1) / m) := by
  have hdm := Nat.div_add_mod (a + m - 1) m
  have hr : (a + m - 1) % m < m := Nat.mod_lt _ hm
  set X := m * ((a + m - 1) / m) with hX
  omega

/-- Ceiling division minimality: `m * ceil(a/m) - m < a` when `a > 0`. -/
lemma ceilDiv_lt (a m : Nat) (hm : 0 < m) (ha : 0 < a) :
    m * ((a + m - 1) / m) - m < a := by
  have hdm := Nat.div_add_mod (a + m - 1) m
  have hr : (a + m - 1) % m < m := Nat.mod_lt _ hm
  set X := m * ((a + m - 1) / m) with hX
  omega

lemma unlockK_le_bound (d p : EpochPoint) (hd : 0 < d.length) (hp : 0 < p.length) :
    (p.number * p.length + p.index) * d.length ≤
      (d.number * d.length + d.index) * p.length +
        CYCLE * (d.length * p.length) * unlockK d p := by
  have hm : 0 < CYCLE * (d.length * p.length) := by
    have h1 : 0 < d.length * p.length := Nat.mul_pos hd hp
    have h2 : 0 < CYCLE := by decide
    exact Nat.mul_pos h2 h1
  simp only [unlockK]
  split_ifs with hle
  · omega
  · have := ceilDiv_ge
      ((p.number * p.length + p.index) * d.length
        - (d.number * d.length + d.index) * p.length)
      (CYCLE * (d.length * p.length)) hm
    omega

lemma unlockK_lt_bound (d p : EpochPoint) (hd : 0 < d.length) (hp : 0 < p.length)
    (hk : unlockK d p ≠ 0) :
    (d.number * d.length + d.index) * p.length +
        CYCLE * (d.length * p.length) * unlockK d p <
      (p.number * p.length + p.index) * d.length +
        CYCLE * (d.length * p.length) := by
  have hm : 0 < CYCLE * (d.length * p.length) := by
    have h1 : 0 < d.length * p.length := Nat.mul_pos hd hp
    have h2 : 0 < CYCLE := by decide
    exact Nat.mul_pos h2 h1
  revert hk
  simp only [unlockK]
  split_ifs with hle
  · intro hk; exact absurd rfl hk
  · intro _
    have := ceilDiv_lt
      ((p.number * p.length + p.index) * d.length
        - (d.number * d.length + d.index) * p.length)
      (CYCLE * (d.length * p.length)) hm (by omega)
    omega

/-- Errors of the maximum-withdraw calculator. -/
inductive CalcError where
  | InvalidRate
  | InvalidCapacity
  | ArithmeticOverflow
  deriving DecidableEq

/-- Modelled from the spec: `calculate_dao_maximum_withdraw4` (external
to the given sources; `src/subcommands/dao/util.rs` only calls and tests
it).  `withdraw = occupied_capacity + floor((output_capacity -
occupied_capacity) * AR_prepare / AR_deposit)`, with at-least-128-bit
intermediate products, truncation toward zero on the final division, and
explicit checked failures `InvalidRate` (zero deposit rate),
`InvalidCapacity` (`output_capacity < occupied_capacity`) and
`ArithmeticOverflow` (a widened computation overflows). -/
def maximum_withdraw (ar_deposit ar_prepare output_capacity occupied_capacity : Nat) :
    Except CalcError Nat :=
  if ar_deposit = 0 then .error .InvalidRate
  else if output_capacity < occupied_capacity then .error .InvalidCapacity
  else if 2 ^ 128 ≤ (output_capacity - occupied_capacity) * ar_prepare then
    .error .ArithmeticOverflow
  else if 2 ^ 64 ≤ occupied_capacity +
      (output_capacity - occupied_capacity) * ar_prepare / ar_deposit then
    .error .ArithmeticOverflow
  else .ok (occupied_capacity +
      (output_capacity - occupied_capacity) * ar_prepare / ar_deposit)

/-- Modelled from the spec: the chain's fixed linear bytes-to-capacity
mapping (`Capacity::bytes`), `1` byte = `100_000_000` base units, with
`u64` overflow reported as `none` rather than wrapped. -/
def Capacity.bytes (b : Nat) : Option Nat :=
  if b * 100000000 < 2 ^ 64 then some (b * 100000000) else none

/-- A transaction output cell, reduced to the fields the core reads:
its declared capacity (base units), the byte size of its static
structure, and the byte length of its auxiliary data. -/
structure CellOutput where
  capacity : Nat
  static_size : Nat
  data_len : Nat
  deriving DecidableEq

/-- Modelled from the spec: a cell's occupied capacity is the
bytes-to-capacity conversion of its static structure size plus the
(already converted) capacity of its auxiliary data, with `u64` overflow
reported as `none`. -/
def CellOutput.occupied_capacity (o : CellOutput) (data_capacity : Nat) : Option Nat :=
  match Capacity.bytes o.static_size with
  | none => none
  | some c => if c + data_capacity < 2 ^ 64 then some (c + data_capacity) else none

/-- The total storage-occupied capacity of a cell (static structure plus
auxiliary data, converted to base units), as an unbounded natural. -/
def CellOutput.occupiedCapacityNat (o : CellOutput) : Nat :=
  (o.static_size + o.data_len) * 100000000

/-- A reference to the output cell that created a previous output
(`previous_output` of a transaction input; the `since` field is unused
by this core). -/
structure OutPoint where
  tx_hash : Nat
  index : Nat
  deriving DecidableEq

/-- A transaction, reduced to the fields the core reads: its inputs
(each modelled by its `previous_output` reference) and its outputs
(cells together with their data lengths). -/
structure Transaction where
  inputs : List OutPoint
  outputs : List CellOutput
  deriving DecidableEq

/-- The status part of an RPC `get_transaction` reply: the committing
block hash, when the transaction is committed. -/
structure TxStatus where
  block_hash : Option Nat
  deriving DecidableEq

/-- An RPC `get_transaction` reply: a status record and, unless the
transaction was rejected, the transaction body. -/
structure TxWithStatus where
  tx_status : TxStatus
  transaction : Option Transaction
  deriving DecidableEq

/-- A chain header, reduced to the fields the core reads: its epoch and
the accumulated rate from its DAO field. -/
structure Header where
  epoch : EpochPoint
  ar : Nat
  deriving DecidableEq

/-- The RPC collaborator: blocking fetches that may fail with a
transport error (`Except.error`) or report "not found" (`none`), and
transaction submission. -/
structure RpcClient where
  get_transaction : Nat → Except String (Option TxWithStatus)
  get_header : Nat → Except String (Option Header)
  send_transaction : Transaction → Except String Nat

/-- The cell reference passed to the resolver (`LiveCellInfo`, reduced
to the fields the core reads: creating transaction hash and output
index). -/
structure LiveCellInfo where
  tx_hash : Nat
  output_index : Nat
  deriving DecidableEq

/-- An outcome of running a fallible piece of the pipeline: an error
`Result` propagated to the caller (`err` for errors produced by this
core's `ok_or` calls, `transport` for errors passed through from the
RPC collaborator with `?`), or an abort of the process (a Rust
`unwrap()` of `None`/`Err`, which panics instead of returning). -/
inductive RunError where
  | err (msg : String)
  | transport (msg : String)
  | panic
  deriving DecidableEq

/-- The fully resolved inputs of the withdraw calculation. -/
structure ResolvedDeposit where
  deposit_header : Header
  prepare_header : Header
  output_capacity : Nat
  occupied_capacity : Nat
  deriving DecidableEq

/-- Error string of `util.rs` line 19. -/
def prepareNotFoundMsg : String := "invalid prepare out_point, the tx is not found"

/-- Error string of `util.rs` line 23. -/
def prepareNotCommittedMsg : String := "invalid prepare out_point, the tx is not committed"

/-- Error string of `util.rs` lines 27 and 50. -/
def rejectedMsg : String := "rejected transaction"

/-- Error string of `util.rs` line 35. -/
def invalidPrepareTxMsg : String := "invalid prepare tx"

/-- Error string of `util.rs` line 41. -/
def depositNotFoundMsg : String := "invalid deposit out_point, the tx is not found"

/-- Error string of `util.rs` line 46. -/
def depositNotCommittedMsg : String := "invalid deposit out_point, the tx is not committed"

/-- Error string of `util.rs` line 58. -/
def cellNotFoundMsg : String := "invalid deposit out_point, the cell is not found"

/-- Error string of `util.rs` line 62. -/
def depositHeaderMsg : String := "failed to get deposit_header"

/-- Error string of `util.rs` line 66. -/
def prepareHeaderMsg : String := "failed to get prepare_header"

/-- Lines 72-74 of `util.rs`: compute the occupied capacity of the
deposited cell by `output.occupied_capacity(Capacity::bytes(
output_data.len()).unwrap()).unwrap()` — both conversions are
`unwrap()`ed, so an overflow aborts (`RunError.panic`) rather than
returning an error. -/
def computeOccupied (o : CellOutput) : Except RunError Nat :=
  match Capacity.bytes o.data_len with
  | none => .error .panic
  | some data_capacity =>
    match o.occupied_capacity data_capacity with
    | none => .error .panic
    | some occ => .ok occ

/-- The resolution pipeline of `calculate_dao_maximum_withdraw`
(`util.rs` lines 17-74): fetch the prepare transaction, find the
deposit out-point it spends, fetch the deposit transaction and cell,
fetch both committing headers, and compute the cell's occupied
capacity.  Direct desugaring of the Rust `?`/`ok_or` chain, in source
order. -/
def resolve (rpc : RpcClient) (prepare_cell : LiveCellInfo) :
    Except RunError ResolvedDeposit :=
  match rpc.get_transaction prepare_cell.tx_hash with
  | .error s => .error (.transport s)
  | .ok none => .error (.err prepareNotFoundMsg)
  | .ok (some prepare_tx_status) =>
    match prepare_tx_status.tx_status.block_hash with
    | none => .error (.err prepareNotCommittedMsg)
    | some prepare_block_hash =>
      match prepare_tx_status.transaction with
      | none => .error (.err rejectedMsg)
      | some prepare_tx =>
        match prepare_tx.inputs[prepare_cell.output_index]? with
        | none => .error (.err invalidPrepareTxMsg)
        | some deposit_out_point =>
          match rpc.get_transaction deposit_out_point.tx_hash with
          | .error s => .error (.transport s)
          | .ok none => .error (.err depositNotFoundMsg)
          | .ok (some deposit_tx_status) =>
            match deposit_tx_status.tx_status.block_hash with
            | none => .error (.err depositNotCommittedMsg)
            | some deposit_block_hash =>
              match deposit_tx_status.transaction with
              | none => .error (.err rejectedMsg)
              | some deposit_tx =>
                match deposit_tx.outputs[deposit_out_point.index]? with
                | none => .error (.err cellNotFoundMsg)
                | some output =>
                  match rpc.get_header deposit_block_hash with
                  | .error s => .error (.transport s)
                  | .ok none => .error (.err depositHeaderMsg)
                  | .ok (some deposit_header) =>
                    match rpc.get_header prepare_block_hash with
                    | .error s => .error (.transport s)
                    | .ok none => .error (.err prepareHeaderMsg)
                    | .ok (some prepare_header) =>
                      match computeOccupied output with
                      | .error e => .error e
                      | .ok occupied_capacity =>
                        .ok ⟨deposit_header, prepare_header,
                             output.capacity, occupied_capacity⟩

/-- The `InsufficientCapacity` error of the pre-submission check, naming
the offending output index. -/
def insufficientCapacityMsg (i : Nat) : String :=
  "InsufficientCapacity: output " ++ toString i

/-- Modelled from the spec: the body of `check_lack_of_capacity`
(external to the given sources), checking each output of the
transaction in order, starting at index `i`: an output whose declared
capacity is below its storage-occupied capacity fails the check with
`InsufficientCapacity` naming that output's index. -/
def checkOutputsFrom : Nat → List CellOutput → Except String Unit
  | _, [] => .ok ()
  | i, o :: rest =>
    if o.capacity < o.occupiedCapacityNat then
      .error (insufficientCapacityMsg i)
    else checkOutputsFrom (i + 1) rest

/-- Modelled from the spec: `check_lack_of_capacity` (called by
`send_transaction` at `util.rs` line 88) validates every output of the
transaction being sent against its storage-occupied capacity. -/
def check_lack_of_capacity (tx : Transaction) : Except String Unit :=
  checkOutputsFrom 0 tx.outputs

/-- The observable outcome of one `send_transaction` call: the returned
`Result` (the accepted hash on success), whether the RPC collaborator's
`send_transaction` was invoked, and whether the debug preview was
rendered. -/
structure SendResult where
  result : Except String Nat
  rpc_called : Bool
  debug_printed : Bool

/-- `send_transaction` (`util.rs` lines 83-99): run the capacity check,
then (only if it passed) optionally render the debug preview, then
submit through the RPC collaborator, propagating its error unchanged. -/
def send_transaction (rpc : RpcClient) (transaction : Transaction) (debug : Bool) :
    SendResult :=
  match check_lack_of_capacity transaction with
  | .error e => ⟨.error e, false, false⟩
  | .ok () =>
    match rpc.send_transaction transaction with
    | .error e => ⟨.error e, true, debug⟩
    | .ok resp => ⟨.ok resp, true, debug⟩

/-- The 18 test vectors of `test_minimal_unlock_point`
(`util.rs` lines 110-151), reproduced by the model. -/
theorem minimal_unlock_point_test_vectors :
    minimal_unlock_point ⟨5, 5, 1000⟩ ⟨184, 4, 1000⟩ = ⟨5 + 180, 5, 1000⟩ ∧
    minimal_unlock_point ⟨5, 5, 1000⟩ ⟨184, 5, 1000⟩ = ⟨5 + 180, 5, 1000⟩ ∧
    minimal_unlock_point ⟨5, 5, 1000⟩ ⟨184, 6, 1000⟩ = ⟨5 + 180, 5, 1000⟩ ∧
    minimal_unlock_point ⟨5, 5, 1000⟩ ⟨185, 4, 1000⟩ = ⟨5 + 180, 5, 1000⟩ ∧
    minimal_unlock_point ⟨5, 5, 1000⟩ ⟨185, 5, 1000⟩ = ⟨5 + 180, 5, 1000⟩ ∧
    minimal_unlock_point ⟨5, 5, 1000⟩ ⟨185, 6, 1000⟩ = ⟨5 + 180 * 2, 5, 1000⟩ ∧
    minimal_unlock_point ⟨5, 5, 1000⟩ ⟨186, 4, 1000⟩ = ⟨5 + 180 * 2, 5, 1000⟩ ∧
    minimal_unlock_point ⟨5, 5, 1000⟩ ⟨186, 5, 1000⟩ = ⟨5 + 180 * 2, 5, 1000⟩ ∧
    minimal_unlock_point ⟨5, 5, 1000⟩ ⟨186, 6, 1000⟩ = ⟨5 + 180 * 2, 5, 1000⟩ ∧
    minimal_unlock_point ⟨5, 5, 1000⟩ ⟨364, 4, 1000⟩ = ⟨5 + 180 * 2, 5, 1000⟩ ∧
    minimal_unlock_point ⟨5, 5, 1000⟩ ⟨364, 5, 1000⟩ = ⟨5 + 180 * 2, 5, 1000⟩ ∧
    minimal_unlock_point ⟨5, 5, 1000⟩ ⟨364, 6, 1000⟩ = ⟨5 + 180 * 2, 5, 1000⟩ ∧
    minimal_unlock_point ⟨5, 5, 1000⟩ ⟨365, 4, 1000⟩ = ⟨5 + 180 * 2, 5, 1000⟩ ∧
    minimal_unlock_point ⟨5, 5, 1000⟩ ⟨365, 5, 1000⟩ = ⟨5 + 180 * 2, 5, 1000⟩ ∧
    minimal_unlock_point ⟨5, 5, 1000⟩ ⟨365, 6, 1000⟩ = ⟨5 + 180 * 3, 5, 1000⟩ ∧
    minimal_unlock_point ⟨5, 5, 1000⟩ ⟨366, 4, 1000⟩ = ⟨5 + 180 * 3, 5, 1000⟩ ∧
    minimal_unlock_point ⟨5, 5, 1000⟩ ⟨366, 5, 1000⟩ = ⟨5 + 180 * 3, 5, 1000⟩ ∧
    minimal_unlock_point ⟨5, 5, 1000⟩ ⟨366, 6, 1000⟩ = ⟨5 + 180 * 3, 5, 1000⟩ := by
  decide

/-- C3: `minimal_unlock_point` with deposit point `(5,5,1000)` returns
`(185,5,1000)` for prepare `(184,4,1000)`, `(365,5,1000)` for prepare
`(185,6,1000)`, and `(365,5,1000)` for prepare `(365,5,1000)` (exact
rational equality at the cycle boundary requires no extra cycle). -/
theorem minimal_unlock_point_scenarios :
    minimal_unlock_point ⟨5, 5, 1000⟩ ⟨184, 4, 1000⟩ = ⟨185, 5, 1000⟩ ∧
    minimal_unlock_point ⟨5, 5, 1000⟩ ⟨185, 6, 1000⟩ = ⟨365, 5, 1000⟩ ∧
    minimal_unlock_point ⟨5, 5, 1000⟩ ⟨365, 5, 1000⟩ = ⟨365, 5, 1000⟩ := by
  decide

/-- C1: for every deposit point `d` and prepare point `p` (positive
lengths, `p` at least `d` as exact rationals), the unlock point `u`
satisfies `u ≥ p`, `u - CYCLE < p` (with `CYCLE = 180`), `u.number =
d.number + k*CYCLE` for some integer `k ≥ 0`, and `u` carries `d`'s
fractional part (`u.index = d.index`, `u.length = d.length`). -/
theorem minimal_unlock_point_correct (d p : EpochPoint)
    (hd : 0 < d.length) (hp : 0 < p.length) (hdp : d.val ≤ p.val) :
    p.val ≤ (minimal_unlock_point d p).val ∧
    (minimal_unlock_point d p).val - 180 < p.val ∧
    (∃ k : ℕ, (minimal_unlock_point d p).number = d.number + k * 180) ∧
    (minimal_unlock_point d p).index = d.index ∧
    (minimal_unlock_point d p).length = d.length := by
  have hu : minimal_unlock_point d p =
      ⟨d.number + unlockK d p * CYCLE, d.index, d.length⟩ := rfl
  refine ⟨?_, ?_, ⟨unlockK d p, rfl⟩, rfl, rfl⟩
  · rw [hu, EpochPoint.val_le_val p
      ⟨d.number + unlockK d p * CYCLE, d.index, d.length⟩ hp hd]
    show (p.number * p.length + p.index) * d.length ≤
      ((d.number + unlockK d p * CYCLE) * d.length + d.index) * p.length
    have h1 := unlockK_le_bound d p hd hp
    have h2 : ((d.number + unlockK d p * CYCLE) * d.length + d.index) * p.length
        = (d.number * d.length + d.index) * p.length
          + CYCLE * (d.length * p.length) * unlockK d p := by ring
    rw [h2]
    exact h1
  · rw [hu]
    rcases Nat.eq_zero_or_pos (unlockK d p) with hk0 | hkpos
    · have hval : (EpochPoint.mk (d.number + unlockK d p * CYCLE) d.index d.length).val
          = d.val := by
        rw [hk0]
        simp [EpochPoint.val]
      rw [hval]
      linarith [hdp]
    · rw [sub_lt_iff_lt_add]
      have hp' : p.val + 180
          = (EpochPoint.mk (p.number + 180) p.index p.length).val := by
        rw [EpochPoint.val_add_number p.number 180 p.index p.length]
        norm_num
      rw [hp', EpochPoint.val_lt_val
        ⟨d.number + unlockK d p * CYCLE, d.index, d.length⟩
        ⟨p.number + 180, p.index, p.length⟩ hd hp]
      show ((d.number + unlockK d p * CYCLE) * d.length + d.index) * p.length <
        ((p.number + 180) * p.length + p.index) * d.length
      have h1 := unlockK_lt_bound d p hd hp (Nat.pos_iff_ne_zero.mp hkpos)
      have h2 : ((d.number + unlockK d p * CYCLE) * d.length + d.index) * p.length
          = (d.number * d.length + d.index) * p.length
            + CYCLE * (d.length * p.length) * unlockK d p := by ring
      have h3 : ((p.number + 180) * p.length + p.index) * d.length
          = (p.number * p.length + p.index) * d.length
            + CYCLE * (d.length * p.length) := by
        simp only [CYCLE]
        ring
      rw [h2, h3]
      exact h1

/-- Witness for C1 at deposit `(5,5,1000)`, prepare `(184,4,1000)`. -/
theorem minimal_unlock_point_correct_witness :
    (EpochPoint.mk 184 4 1000).val
        ≤ (minimal_unlock_point ⟨5, 5, 1000⟩ ⟨184, 4, 1000⟩).val ∧
    (minimal_unlock_point ⟨5, 5, 1000⟩ ⟨184, 4, 1000⟩).val - 180
        < (EpochPoint.mk 184 4 1000).val ∧
    (∃ k : ℕ,
      (minimal_unlock_point ⟨5, 5, 1000⟩ ⟨184, 4, 1000⟩).number = 5 + k * 180) ∧
    (minimal_unlock_point ⟨5, 5, 1000⟩ ⟨184, 4, 1000⟩).index = 5 ∧
    (minimal_unlock_point ⟨5, 5, 1000⟩ ⟨184, 4, 1000⟩).length = 1000 :=
  minimal_unlock_point_correct ⟨5, 5, 1000⟩ ⟨184, 4, 1000⟩ (by norm_num)
    (by norm_num) (by norm_num [EpochPoint.val])

/-- C9: `minimal_unlock_point` is idempotent in its second argument. -/
theorem minimal_unlock_point_idempotent (d p : EpochPoint)
    (hd : 0 < d.length) (hp : 0 < p.length) (hdp : d.val ≤ p.val) :
    minimal_unlock_point d (minimal_unlock_point d p) = minimal_unlock_point d p := by
  have hcy : 0 < CYCLE := by decide
  have hM : 0 < CYCLE * (d.length * d.length) := Nat.mul_pos hcy (Nat.mul_pos hd hd)
  rcases Nat.eq_zero_or_pos (unlockK d p) with hk0 | hkpos
  · have hdd : minimal_unlock_point d p = d := by
      simp [minimal_unlock_point, hk0]
    rw [hdd]
    simp [minimal_unlock_point, unlockK]
  · have key : ∀ k : Nat, 0 < k →
        unlockK d ⟨d.number + k * CYCLE, d.index, d.length⟩ = k := by
      intro k hk
      have hkM : 0 < k * (CYCLE * (d.length * d.length)) := Nat.mul_pos hk hM
      have heq : ((d.number + k * CYCLE) * d.length + d.index) * d.length
          = (d.number * d.length + d.index) * d.length
            + k * (CYCLE * (d.length * d.length)) := by ring
      simp only [unlockK]
      rw [if_neg (by omega)]
      rw [heq, Nat.add_sub_cancel_left]
      have hstep : k * (CYCLE * (d.length * d.length))
            + CYCLE * (d.length * d.length) - 1
          = CYCLE * (d.length * d.length) * k
            + (CYCLE * (d.length * d.length) - 1) := by
        rw [Nat.mul_comm k (CYCLE * (d.length * d.length))]
        omega
      rw [hstep, Nat.mul_add_div hM, Nat.div_eq_of_lt (by omega), Nat.add_zero]
    show (⟨d.number + unlockK d (minimal_unlock_point d p) * CYCLE, d.index, d.length⟩
        : EpochPoint) = minimal_unlock_point d p
    have hmup : minimal_unlock_point d p
        = ⟨d.number + unlockK d p * CYCLE, d.index, d.length⟩ := rfl
    rw [hmup, key (unlockK d p) hkpos]

/-- Witness for C9 at deposit `(5,5,1000)`, prepare `(184,4,1000)`. -/
theorem minimal_unlock_point_idempotent_witness :
    minimal_unlock_point ⟨5, 5, 1000⟩
        (minimal_unlock_point ⟨5, 5, 1000⟩ ⟨184, 4, 1000⟩)
      = minimal_unlock_point ⟨5, 5, 1000⟩ ⟨184, 4, 1000⟩ :=
  minimal_unlock_point_idempotent ⟨5, 5, 1000⟩ ⟨184, 4, 1000⟩ (by norm_num)
    (by norm_num) (by norm_num [EpochPoint.val])

/-- C2: `maximum_withdraw` computes `occupied_capacity +
floor((output_capacity - occupied_capacity) * AR_prepare / AR_deposit)`
(widened intermediates, truncating division), and on deposit AR
`10_000_000_000_123_456`, prepare AR `10_000_000_001_123_456`, an
output of `1_000_000` capacity-bytes (`10^14` base units) and `10`
bytes of auxiliary data (occupied `10^9` base units) it returns exactly
`100_000_000_009_999`. -/
theorem maximum_withdraw_formula :
    (∀ ar_deposit ar_prepare output_capacity occupied_capacity w,
        maximum_withdraw ar_deposit ar_prepare output_capacity occupied_capacity
          = .ok w →
        w = occupied_capacity +
          (output_capacity - occupied_capacity) * ar_prepare / ar_deposit) ∧
    maximum_withdraw 10000000000123456 10000000001123456 100000000000000 1000000000
      = .ok 100000000009999 := by
  constructor
  · intro ard arp oc occ w h
    simp only [maximum_withdraw] at h
    split_ifs at h
    all_goals first
      | exact Except.noConfusion h
      | exact ((Except.ok.injEq _ _).mp h).symm
  · rfl

/-- Witness for C2's formula clause at the scenario-D inputs. -/
theorem maximum_withdraw_formula_witness :
    (100000000009999 : Nat)
      = 1000000000 + (100000000000000 - 1000000000)
          * 10000000001123456 / 10000000000123456 :=
  maximum_withdraw_formula.1 10000000000123456 10000000001123456
    100000000000000 1000000000 100000000009999 maximum_withdraw_formula.2

/-- C4 counterexample: with `AR_prepare = AR_deposit = 1`, output
capacity `2` and occupied capacity `1`, `maximum_withdraw` returns the
full output capacity `2`, not the occupied capacity `1` as the claim
states. -/
theorem maximum_withdraw_equal_rate_counterexample :
    maximum_withdraw 1 1 2 1 = .ok 2 ∧ (2 : Nat) ≠ 1 := ⟨rfl, by decide⟩

/-- C4 (amended): for fixed deposit AR, output capacity and occupied
capacity, `maximum_withdraw` is monotonically non-decreasing in the
prepare AR (between successful results); and when the prepare AR equals
the deposit AR it returns `output_capacity` exactly (not
`occupied_capacity`). -/
theorem maximum_withdraw_monotone :
    (∀ ar_deposit ar1 ar2 output_capacity occupied_capacity w1 w2,
        ar1 ≤ ar2 →
        maximum_withdraw ar_deposit ar1 output_capacity occupied_capacity = .ok w1 →
        maximum_withdraw ar_deposit ar2 output_capacity occupied_capacity = .ok w2 →
        w1 ≤ w2) ∧
    (∀ ar output_capacity occupied_capacity w,
        maximum_withdraw ar ar output_capacity occupied_capacity = .ok w →
        w = output_capacity) := by
  constructor
  · intro ard ar1 ar2 oc occ w1 w2 hle h1 h2
    simp only [maximum_withdraw] at h1 h2
    split_ifs at h1 h2
    have e1 := (Except.ok.injEq _ _ |>.mp h1)
    have e2 := (Except.ok.injEq _ _ |>.mp h2)
    subst e1
    subst e2
    exact Nat.add_le_add_left
      (Nat.div_le_div_right (Nat.mul_le_mul_left _ hle)) _
  · intro ar oc occ w h
    simp only [maximum_withdraw] at h
    split_ifs at h with h1 h2 h3 h4
    all_goals first
      | exact Except.noConfusion h
      | (have e := (Except.ok.injEq _ _).mp h
         subst e
         rw [Nat.mul_div_cancel _ (Nat.pos_of_ne_zero h1)]
         omega)

/-- Witness for C4's amended clauses: deposit AR `2`, prepare ARs `2 ≤ 4`,
output `10`, occupied `4` give withdraws `10 ≤ 16`; at equal rates the
result is the output capacity. -/
theorem maximum_withdraw_monotone_witness :
    (10 : Nat) ≤ 16 ∧ (10 : Nat) = 10 :=
  ⟨maximum_withdraw_monotone.1 2 2 4 10 4 10 16 (by norm_num) rfl rfl,
   maximum_withdraw_monotone.2 2 10 4 10 rfl⟩

lemma computeOccupied_error_eq (o : CellOutput) (e : RunError)
    (h : computeOccupied o = .error e) : e = .panic := by
  rcases hb : Capacity.bytes o.data_len with _ | dc
  · simp only [computeOccupied, hb, Except.error.injEq] at h
    exact h.symm
  · rcases ho : o.occupied_capacity dc with _ | occ
    · simp only [computeOccupied, hb, ho, Except.error.injEq] at h
      exact h.symm
    · simp only [computeOccupied, hb, ho] at h
      exact Except.noConfusion h

/-- Deposit-transaction output with an auxiliary-data length whose
bytes-to-capacity conversion overflows `u64`
(`2^60 * 100_000_000 ≥ 2^64`). -/
def capOverflowOutput : CellOutput := ⟨100000000000, 8, 2 ^ 60⟩

/-- An RPC state on which resolution reaches the occupied-capacity
computation with `capOverflowOutput` as the deposited cell: the
prepare transaction (hash `1`) is committed in block `10` and spends
output `0` of the deposit transaction (hash `2`), committed in block
`20`; both headers exist. -/
def capOverflowRpc : RpcClient where
  get_transaction := fun h =>
    if h = 1 then .ok (some ⟨⟨some 10⟩, some ⟨[⟨2, 0⟩], []⟩⟩)
    else if h = 2 then .ok (some ⟨⟨some 20⟩, some ⟨[], [capOverflowOutput]⟩⟩)
    else .ok none
  get_header := fun h =>
    if h = 10 then .ok (some ⟨⟨200, 0, 1⟩, 10000000001123456⟩)
    else if h = 20 then .ok (some ⟨⟨100, 0, 1⟩, 10000000000123456⟩)
    else .ok none
  send_transaction := fun _ => .error "unused"

/-- C5 counterexample: on `capOverflowRpc` the resolution pipeline's
bytes-to-capacity conversion for `occupied_capacity` overflows and the
code `unwrap()`s it — the run aborts (`RunError.panic`); no error
`Result` is returned to the caller, contradicting the claim that the
overflow "is returned as an Error". -/
theorem resolve_overflow_panics :
    resolve capOverflowRpc ⟨1, 0⟩ = .error RunError.panic ∧
    RunError.panic ≠ RunError.err prepareNotFoundMsg := ⟨rfl, by decide⟩

/-- C5 (amended): `maximum_withdraw` fails with `InvalidRate` when the
deposit AR is `0`, with `InvalidCapacity` when `output_capacity <
occupied_capacity`, and with `ArithmeticOverflow` when a widened
computation overflows — all explicit checked error results, and a
successful result is always the exact untruncated value; but in
resolution, overflow of the bytes-to-capacity conversion for
`occupied_capacity` aborts the run (an `unwrap()`), it is not returned
as an `Error` (and is never silently wrapped). -/
theorem maximum_withdraw_error_conditions :
    (∀ ar_prepare output_capacity occupied_capacity,
        maximum_withdraw 0 ar_prepare output_capacity occupied_capacity
          = .error .InvalidRate) ∧
    (∀ ar_deposit ar_prepare output_capacity occupied_capacity,
        ar_deposit ≠ 0 → output_capacity < occupied_capacity →
        maximum_withdraw ar_deposit ar_prepare output_capacity occupied_capacity
          = .error .InvalidCapacity) ∧
    (∀ ar_deposit ar_prepare output_capacity occupied_capacity,
        ar_deposit ≠ 0 → ¬ output_capacity < occupied_capacity →
        2 ^ 128 ≤ (output_capacity - occupied_capacity) * ar_prepare →
        maximum_withdraw ar_deposit ar_prepare output_capacity occupied_capacity
          = .error .ArithmeticOverflow) ∧
    (∀ ar_deposit ar_prepare output_capacity occupied_capacity w,
        maximum_withdraw ar_deposit ar_prepare output_capacity occupied_capacity
          = .ok w →
        w = occupied_capacity +
            (output_capacity - occupied_capacity) * ar_prepare / ar_deposit ∧
        w < 2 ^ 64) ∧
    (∀ b, Capacity.bytes b = none ↔ 2 ^ 64 ≤ b * 100000000) ∧
    (∀ o : CellOutput, 2 ^ 64 ≤ o.data_len * 100000000 →
        computeOccupied o = .error RunError.panic) := by
  refine ⟨?_, ?_, ?_, ?_, ?_, ?_⟩
  · intro arp oc occ
    simp [maximum_withdraw]
  · intro ard arp oc occ h1 h2
    simp only [maximum_withdraw]
    rw [if_neg h1, if_pos h2]
  · intro ard arp oc occ h1 h2 h3
    simp only [maximum_withdraw]
    rw [if_neg h1, if_neg h2, if_pos h3]
  · intro ard arp oc occ w h
    simp only [maximum_withdraw] at h
    split_ifs at h with h1 h2 h3 h4
    all_goals first
      | exact Except.noConfusion h
      | (have e := (Except.ok.injEq _ _).mp h
         subst e
         exact ⟨rfl, by omega⟩)
  · intro b
    simp only [Capacity.bytes]
    split_ifs with hb
    · simp
      omega
    · simp
      omega
  · intro o ho
    have hb : Capacity.bytes o.data_len = none := by
      simp only [Capacity.bytes]
      rw [if_neg (by omega)]
    simp [computeOccupied, hb]

/-- Witness for C5's amended clauses at concrete inputs. -/
theorem maximum_withdraw_error_conditions_witness :
    maximum_withdraw 0 1 2 1 = .error .InvalidRate ∧
    maximum_withdraw 1 1 1 2 = .error .InvalidCapacity ∧
    maximum_withdraw 1 (2 ^ 128) 1 0 = .error .ArithmeticOverflow ∧
    ((10 : Nat) = 4 + (10 - 4) * 2 / 2 ∧ (10 : Nat) < 2 ^ 64) ∧
    (Capacity.bytes (2 ^ 60) = none ↔ 2 ^ 64 ≤ 2 ^ 60 * 100000000) ∧
    computeOccupied capOverflowOutput = .error RunError.panic :=
  ⟨maximum_withdraw_error_conditions.1 1 2 1,
   maximum_withdraw_error_conditions.2.1 1 1 1 2 (by norm_num) (by norm_num),
   maximum_withdraw_error_conditions.2.2.1 1 (2 ^ 128) 1 0 (by norm_num)
     (by norm_num) (by norm_num),
   maximum_withdraw_error_conditions.2.2.2.1 2 2 10 4 10 rfl,
   maximum_withdraw_error_conditions.2.2.2.2.1 (2 ^ 60),
   maximum_withdraw_error_conditions.2.2.2.2.2 capOverflowOutput
     (by norm_num [capOverflowOutput])⟩

/-- C6: if the node knows the prepare transaction but it has no
committing block hash, `resolve` returns the not-committed error (the
model's `NotCommitted`), never the not-found error; and the prepare
not-found error (the model's `NotFound`) is returned only when the node
has no record of the transaction at all — the existence check precedes
the commitment check. -/
theorem resolve_not_committed_precedence (rpc : RpcClient) (cell : LiveCellInfo) :
    (∀ ts, rpc.get_transaction cell.tx_hash = .ok (some ts) →
        ts.tx_status.block_hash = none →
        resolve rpc cell = .error (.err prepareNotCommittedMsg)) ∧
    (resolve rpc cell = .error (.err prepareNotFoundMsg) →
        rpc.get_transaction cell.tx_hash = .ok none) := by
  constructor
  · intro ts h1 h2
    simp only [resolve, h1, h2]
  · intro h
    simp only [resolve] at h
    rcases hgt : rpc.get_transaction cell.tx_hash with s | (_ | ts)
    · simp only [hgt] at h
      injection h with h
      exact RunError.noConfusion h
    · rfl
    · exfalso
      simp only [hgt] at h
      rcases hbh : ts.tx_status.block_hash with _ | pbh
      · simp only [hbh] at h
        injection h with h
        injection h with h
        exact absurd h (by decide)
      simp only [hbh] at h
      rcases htx : ts.transaction with _ | ptx
      · simp only [htx] at h
        injection h with h
        injection h with h
        exact absurd h (by decide)
      simp only [htx] at h
      rcases hin : ptx.inputs[cell.output_index]? with _ | dop
      · simp only [hin] at h
        injection h with h
        injection h with h
        exact absurd h (by decide)
      simp only [hin] at h
      rcases hgt2 : rpc.get_transaction dop.tx_hash with s2 | (_ | dts)
      · simp only [hgt2] at h
        injection h with h
        exact RunError.noConfusion h
      · simp only [hgt2] at h
        injection h with h
        injection h with h
        exact absurd h (by decide)
      simp only [hgt2] at h
      rcases hbh2 : dts.tx_status.block_hash with _ | dbh
      · simp only [hbh2] at h
        injection h with h
        injection h with h
        exact absurd h (by decide)
      simp only [hbh2] at h
      rcases htx2 : dts.transaction with _ | dtx
      · simp only [htx2] at h
        injection h with h
        injection h with h
        exact absurd h (by decide)
      simp only [htx2] at h
      rcases hout : dtx.outputs[dop.index]? with _ | output
      · simp only [hout] at h
        injection h with h
        injection h with h
        exact absurd h (by decide)
      simp only [hout] at h
      rcases hh1 : rpc.get_header dbh with s3 | (_ | dhd)
      · simp only [hh1] at h
        injection h with h
        exact RunError.noConfusion h
      · simp only [hh1] at h
        injection h with h
        injection h with h
        exact absurd h (by decide)
      simp only [hh1] at h
      rcases hh2 : rpc.get_header pbh with s4 | (_ | phd)
      · simp only [hh2] at h
        injection h with h
        exact RunError.noConfusion h
      · simp only [hh2] at h
        injection h with h
        injection h with h
        exact absurd h (by decide)
      simp only [hh2] at h
      rcases hco : computeOccupied output with e | occ
      · simp only [hco] at h
        have he := computeOccupied_error_eq output e hco
        subst he
        injection h with h
        exact RunError.noConfusion h
      · simp only [hco] at h
        exact Except.noConfusion h

/-- RPC state for the C6 witness: transaction `1` exists but has no
committing block hash. -/
def c6NotCommittedRpc : RpcClient where
  get_transaction := fun h =>
    if h = 1 then .ok (some ⟨⟨none⟩, none⟩) else .ok none
  get_header := fun _ => .ok none
  send_transaction := fun _ => .error "unused"

/-- RPC state for the C6 witness: the node has no record of any
transaction. -/
def c6NotFoundRpc : RpcClient where
  get_transaction := fun _ => .ok none
  get_header := fun _ => .ok none
  send_transaction := fun _ => .error "unused"

/-- Witness for C6 at concrete RPC states. -/
theorem resolve_not_committed_precedence_witness :
    resolve c6NotCommittedRpc ⟨1, 0⟩ = .error (.err prepareNotCommittedMsg) ∧
    c6NotFoundRpc.get_transaction 1 = .ok none :=
  ⟨(resolve_not_committed_precedence c6NotCommittedRpc ⟨1, 0⟩).1
      ⟨⟨none⟩, none⟩ rfl rfl,
   (resolve_not_committed_precedence c6NotFoundRpc ⟨1, 0⟩).2 rfl⟩

/-- Deposit header of the C7 scenario. -/
def c7DepositHeader : Header := ⟨⟨5, 5, 1000⟩, 10000000000123456⟩

/-- Prepare header of the C7 scenario: its epoch equals the deposit
header's epoch, so it is not strictly later. -/
def c7PrepareHeader : Header := ⟨⟨5, 5, 1000⟩, 10000000001123456⟩

/-- Deposited cell of the C7 scenario. -/
def c7Output : CellOutput := ⟨100000000000, 8, 10⟩

/-- RPC state of the C7 scenario: a fully resolvable prepare/deposit
pair whose two headers carry the same epoch. -/
def c7Rpc : RpcClient where
  get_transaction := fun h =>
    if h = 1 then .ok (some ⟨⟨some 10⟩, some ⟨[⟨2, 0⟩], []⟩⟩)
    else if h = 2 then .ok (some ⟨⟨some 20⟩, some ⟨[], [c7Output]⟩⟩)
    else .ok none
  get_header := fun h =>
    if h = 10 then .ok (some c7PrepareHeader)
    else if h = 20 then .ok (some c7DepositHeader)
    else .ok none
  send_transaction := fun _ => .error "unused"

/-- The successful resolution result of the C7 scenario. -/
def c7Resolved : ResolvedDeposit :=
  ⟨c7DepositHeader, c7PrepareHeader, 100000000000, 1800000000⟩

/-- C7 counterexample: on `c7Rpc` the prepare header's epoch equals the
deposit header's epoch (so it is not strictly later), yet `resolve`
returns a successful `ResolvedDeposit` instead of failing. -/
theorem resolve_succeeds_at_equal_epochs :
    resolve c7Rpc ⟨1, 0⟩ = .ok c7Resolved ∧
    c7DepositHeader.epoch = c7PrepareHeader.epoch := ⟨rfl, rfl⟩

/-- C7 (amended): resolution performs no epoch-ordering validation —
`resolve` can return a successful `ResolvedDeposit` whose prepare
header's epoch is not strictly later (here: not greater as an exact
rational) than its deposit header's epoch. -/
theorem resolve_performs_no_epoch_check :
    resolve c7Rpc ⟨1, 0⟩ = .ok c7Resolved ∧
    ¬ c7Resolved.deposit_header.epoch.val < c7Resolved.prepare_header.epoch.val :=
  ⟨rfl, by simp [c7Resolved, c7DepositHeader, c7PrepareHeader]⟩

lemma checkOutputsFrom_offend (os : List CellOutput) :
    ∀ start : Nat, (∃ o ∈ os, o.capacity < o.occupiedCapacityNat) →
      ∃ j, checkOutputsFrom start os = .error (insufficientCapacityMsg j) := by
  induction os with
  | nil =>
    intro start h
    rcases h with ⟨o, ho, _⟩
    cases ho
  | cons o rest ih =>
    intro start h
    by_cases hc : o.capacity < o.occupiedCapacityNat
    · exact ⟨start, by simp [checkOutputsFrom, hc]⟩
    · rcases h with ⟨o', ho', hlt⟩
      rcases List.mem_cons.mp ho' with rfl | hmem
      · exact absurd hlt hc
      · rcases ih (start + 1) ⟨o', hmem, hlt⟩ with ⟨j, hj⟩
        exact ⟨j, by simp [checkOutputsFrom, hc, hj]⟩

/-- C8: for every transaction containing an output whose declared
capacity is below its storage-occupied capacity, `send_transaction`
returns the `InsufficientCapacity` error (naming an output index) and
the RPC collaborator's `send_transaction` is never invoked. -/
theorem send_transaction_insufficient_capacity (rpc : RpcClient)
    (tx : Transaction) (debug : Bool)
    (h : ∃ o ∈ tx.outputs, o.capacity < o.occupiedCapacityNat) :
    (∃ i, (send_transaction rpc tx debug).result
        = .error (insufficientCapacityMsg i)) ∧
    (send_transaction rpc tx debug).rpc_called = false := by
  rcases checkOutputsFrom_offend tx.outputs 0 h with ⟨j, hj⟩
  have hcheck : check_lack_of_capacity tx = .error (insufficientCapacityMsg j) := hj
  exact ⟨⟨j, by simp [send_transaction, hcheck]⟩,
    by simp [send_transaction, hcheck]⟩

/-- Output of the C8 witness: declared capacity `100`, occupied
capacity `(8 + 10) * 100_000_000`. -/
def c8BadOutput : CellOutput := ⟨100, 8, 10⟩

/-- RPC collaborator of the C8 witness. -/
def c8Rpc : RpcClient where
  get_transaction := fun _ => .ok none
  get_header := fun _ => .ok none
  send_transaction := fun _ => .ok 42

/-- Witness for C8 on a one-output transaction below its storage
cost. -/
theorem send_transaction_insufficient_capacity_witness :
    (∃ i, (send_transaction c8Rpc ⟨[], [c8BadOutput]⟩ true).result
        = .error (insufficientCapacityMsg i)) ∧
    (send_transaction c8Rpc ⟨[], [c8BadOutput]⟩ true).rpc_called = false :=
  send_transaction_insufficient_capacity c8Rpc ⟨[], [c8BadOutput]⟩ true
    ⟨c8BadOutput, by simp,
     by norm_num [c8BadOutput, CellOutput.occupiedCapacityNat]⟩

/-- C10: when the pre-submission capacity check fails,
`send_transaction` has no observable effect before returning the error:
even with `debug = true` the debug preview is not rendered (the check
runs before the preview) and the RPC collaborator is never called. -/
theorem send_transaction_check_fails_no_effect (rpc : RpcClient)
    (tx : Transaction) (debug : Bool) (e : String)
    (h : check_lack_of_capacity tx = .error e) :
    (send_transaction rpc tx debug).result = .error e ∧
    (send_transaction rpc tx debug).rpc_called = false ∧
    (send_transaction rpc tx debug).debug_printed = false := by
  simp [send_transaction, h]

/-- Output of the C10 witness. -/
def c10BadOutput : CellOutput := ⟨100, 8, 10⟩

/-- RPC collaborator of the C10 witness. -/
def c10Rpc : RpcClient where
  get_transaction := fun _ => .ok none
  get_header := fun _ => .ok none
  send_transaction := fun _ => .ok 42

/-- Witness for C10 with `debug = true` on a failing transaction. -/
theorem send_transaction_check_fails_no_effect_witness :
    (send_transaction c10Rpc ⟨[], [c10BadOutput]⟩ true).result
        = .error (insufficientCapacityMsg 0) ∧
    (send_transaction c10Rpc ⟨[], [c10BadOutput]⟩ true).rpc_called = false ∧
    (send_transaction c10Rpc ⟨[], [c10BadOutput]⟩ true).debug_printed = false :=
  send_transaction_check_fails_no_effect c10Rpc ⟨[], [c10BadOutput]⟩ true
    (insufficientCapacityMsg 0) rfl
